import Mathlib

/-!
# Verification of the arXiv paper notifier pipeline

A shallow embedding of the windowed crawl-and-notify pipeline of the
`arXiv_paper_notifier` repository (`app/crawler.py`, `app/utils.py`,
`app/tasks_crawler.py`, `app/notifier.py`), together with theorems that
settle the specification's claims about it.

Conventions of the embedding:
* `datetime` values are `DateTime` records of calendar fields; durations and
  window endpoints are absolute seconds (`Int`) obtained via `toEpochSeconds`.
* external collaborators (the arXiv feed, the Elasticsearch scoring engine,
  the Kakao endpoint, the reranker model loader) are oracle parameters;
* Python exceptions are `Except` values / a `raised` flag;
* Redis and the Elasticsearch index are explicit state records.
-/

namespace ArxivNotifier

/-! ## Calendar timestamps (`%Y%m%d%H%M%S` handling)

`datetime.strptime(s, "%Y%m%d%H%M%S")` and `.strftime('%Y%m%d%H%M%S')` from
`app/crawler.py` / `app/utils.py`.
-/

structure DateTime where
  year : Nat
  month : Nat
  day : Nat
  hour : Nat
  minute : Nat
  second : Nat
deriving DecidableEq, Repr

def isLeap (y : Nat) : Bool :=
  (y % 4 == 0 && y % 100 != 0) || y % 400 == 0

def daysInMonth (y m : Nat) : Nat :=
  if m == 2 then (if isLeap y then 29 else 28)
  else if m == 4 || m == 6 || m == 9 || m == 11 then 30
  else 31

/-- Days of the months of year `y` strictly before month `m`. -/
def cumMonthDays (y m : Nat) : Nat :=
  (List.range (m - 1)).foldl (fun acc i => acc + daysInMonth y (i + 1)) 0

/-- Absolute second count of a calendar datetime (seconds since 0001-01-01,
proleptic Gregorian), the embedding's common timeline for window arithmetic
(`timedelta` becomes subtraction of `hours * 3600`). -/
def toEpochSeconds (dt : DateTime) : Int :=
  let yd := dt.year - 1
  let days := 365 * yd + yd / 4 - yd / 100 + yd / 400
      + cumMonthDays dt.year dt.month + (dt.day - 1)
  ((days * 86400 + dt.hour * 3600 + dt.minute * 60 + dt.second : Nat) : Int)

def digitsToNat (cs : List Char) : Nat :=
  cs.foldl (fun acc c => acc * 10 + (c.toNat - 48)) 0

/-- `datetime.strptime(s, "%Y%m%d%H%M%S")`: fourteen digits carrying a valid
calendar field tuple; any other input raises, which the callers catch, so the
embedding returns `none` for it. -/
def parse_timestamp (s : String) : Option DateTime :=
  let cs := s.toList
  if cs.length = 14 ∧ cs.all Char.isDigit then
    let y := digitsToNat (cs.take 4)
    let m := digitsToNat ((cs.drop 4).take 2)
    let d := digitsToNat ((cs.drop 6).take 2)
    let hh := digitsToNat ((cs.drop 8).take 2)
    let mi := digitsToNat ((cs.drop 10).take 2)
    let ss := digitsToNat ((cs.drop 12).take 2)
    if 1 ≤ y ∧ 1 ≤ m ∧ m ≤ 12 ∧ 1 ≤ d ∧ d ≤ daysInMonth y m
        ∧ hh ≤ 23 ∧ mi ≤ 59 ∧ ss ≤ 59 then
      some ⟨y, m, d, hh, mi, ss⟩
    else none
  else none

def padNat (width n : Nat) : String :=
  let s := toString n
  if s.length < width then String.mk (List.replicate (width - s.length) '0') ++ s
  else s

/-- `dt.strftime('%Y%m%d%H%M%S')`. -/
def format_timestamp (dt : DateTime) : String :=
  padNat 4 dt.year ++ padNat 2 dt.month ++ padNat 2 dt.day
    ++ padNat 2 dt.hour ++ padNat 2 dt.minute ++ padNat 2 dt.second

/-! ## Data model -/

/-- The fields of `config.json` that the modelled code reads.  An absent
`keywords` key is the empty list (same truthiness in `config.get`). -/
structure Config where
  crawl_period : Int
  keywords : List String
  messenger : Option String
  reranker : Option String
deriving DecidableEq, Repr

/-- A feedparser entry, as consumed by `store_papers_to_elasticsearch`
(`paper.id`, `paper.title`, author names, `paper.summary`, `paper.published`,
`paper.link`).  Published timestamps live on the common `Int` timeline. -/
structure Entry where
  id : String
  title : String
  authors : List String
  summary : String
  published : Int
  link : String
deriving DecidableEq, Repr

/-- The document stored in the `arxiv_papers` index. -/
structure Document where
  id : String
  title : String
  authors : List String
  abstract : String
  published_date : Int
  link : String
deriving DecidableEq, Repr

/-- The Elasticsearch index: identifier-keyed documents in insertion order. -/
abbrev Index := List (String × Document)

/-- The Redis keys the pipeline reads and writes. -/
structure Redis where
  config : Config
  last_crawl_timestamp : Option String
  last_crawl_paper_count : Option Nat
  search_keywords : List String
  recent_papers : Option (List Entry)
deriving DecidableEq, Repr

structure SysState where
  redis : Redis
  es : Index
deriving DecidableEq, Repr

/-! ## `app/crawler.py` -/

/-- `text.replace("\n", " ")`: the pattern is a single character, so the
replacement is a character-wise map. -/
def replaceNewlines (s : String) : String :=
  String.mk (s.toList.map fun c => if c = '\n' then ' ' else c)

/-- The document built from an entry in `store_papers_to_elasticsearch`
(newlines in title and abstract replaced by spaces). -/
def buildDoc (paper : Entry) : Document :=
  { id := paper.id
    title := replaceNewlines paper.title
    authors := paper.authors
    abstract := replaceNewlines paper.summary
    published_date := paper.published
    link := paper.link }

/-- `es_client.index(..., op_type="create")`: raises `ConflictError` when the
identifier is already present, otherwise appends the document. -/
def es_index_create (idx : Index) (doc : Document) : Except Unit Index :=
  if doc.id ∈ idx.map Prod.fst then Except.error ()
  else Except.ok (idx ++ [(doc.id, doc)])

/-- The `try/except ConflictError` around the create call: a conflict is
logged and skipped, never propagated. -/
def indexAttempt (idx : Index) (doc : Document) : Index :=
  match es_index_create idx doc with
  | Except.ok idx2 => idx2
  | Except.error _ => idx

/-- The `for paper in papers` loop of `store_papers_to_elasticsearch`:
`count += 1` sits after the `try/except`, so every processed entry counts. -/
def storeLoop : List Entry → Index → Nat → Nat × Index
  | [], idx, count => (count, idx)
  | paper :: rest, idx, count =>
      storeLoop rest (indexAttempt idx (buildDoc paper)) (count + 1)

def store_papers_to_elasticsearch (papers : List Entry) (idx : Index) : Nat × Index :=
  storeLoop papers idx 0

/-- The crawl window of `crawl_and_store` together with whether the
`except` branch logged a parse warning. -/
structure Window where
  start_datetime : Int
  end_datetime : Int
  parse_warning : Bool
deriving DecidableEq, Repr

/-- Lines 100-112 of `app/crawler.py`: `if last_crawl_time:` (absent or empty
is falsy), `strptime` in a `try`, fallback to `utcnow()` on absence or parse
failure, `start = end - timedelta(hours=crawl_period)`. -/
def crawl_window (last_crawl_time : Option String) (crawl_period : Int)
    (now : DateTime) : Window :=
  match last_crawl_time with
  | some s =>
      if s = "" then
        ⟨toEpochSeconds now - crawl_period * 3600, toEpochSeconds now, false⟩
      else
        match parse_timestamp s with
        | some dt =>
            ⟨toEpochSeconds dt - crawl_period * 3600, toEpochSeconds dt, false⟩
        | none =>
            ⟨toEpochSeconds now - crawl_period * 3600, toEpochSeconds now, true⟩
  | none => ⟨toEpochSeconds now - crawl_period * 3600, toEpochSeconds now, false⟩

/-- The window that a run of `crawl_and_store` on state `st` at time `now`
will use. -/
def ingest_window (st : SysState) (now : DateTime) : Window :=
  crawl_window st.redis.last_crawl_timestamp st.redis.config.crawl_period now

/-- `fetch_arxiv_papers`, abstracted to an oracle over the window seconds: the
feed either yields the accumulated entries of all categories or raises. -/
abbrev FetchOracle := Int → Int → Except Unit (List Entry)

/-- `crawl_and_store`: compute the window from Redis, fetch (an uncaught fetch
exception propagates before any write), index non-empty results, cache them in
`recent_papers`, and set `last_crawl_paper_count`. -/
def crawl_and_store (fetch : FetchOracle) (now : DateTime) (st : SysState) :
    Except Unit SysState :=
  let w := ingest_window st now
  match fetch w.start_datetime w.end_datetime with
  | Except.error e => Except.error e
  | Except.ok papers =>
      if papers.isEmpty then
        Except.ok { st with redis := { st.redis with last_crawl_paper_count := some 0 } }
      else
        let r := store_papers_to_elasticsearch papers st.es
        Except.ok { st with
          es := r.2
          redis := { st.redis with
            recent_papers := some papers
            last_crawl_paper_count := some r.1 } }

/-! ## `app/utils.py` -/

/-- `store_last_execution_time`: write `utcnow().strftime('%Y%m%d%H%M%S')` to
the `last_crawl_timestamp` key. -/
def store_last_execution_time (now : DateTime) (r : Redis) : Redis :=
  { r with last_crawl_timestamp := some (format_timestamp now) }

/-! ## `app/notifier.py` -/

/-- `get_search_keywords`: the Redis `search_keywords` set (materialised in
arbitrary order), replaced by `config["keywords"]` only when the stored set is
empty and the configured list is truthy. -/
def get_search_keywords (stored_keywords : List String) (config : Config) :
    List String :=
  let keywords := stored_keywords
  if keywords.isEmpty && !config.keywords.isEmpty then config.keywords
  else keywords

/-- The window computation of `send_notification` (lines 146-153): no
truthiness guard, so an absent key reaches `strptime` as `None` and lands in
the same `except` branch as an unparsable string, with a warning. -/
def notifier_window (last_crawl_time : Option String) (crawl_period : Int)
    (now : DateTime) : Window :=
  match last_crawl_time.bind parse_timestamp with
  | some dt => ⟨toEpochSeconds dt - crawl_period * 3600, toEpochSeconds dt, false⟩
  | none => ⟨toEpochSeconds now - crawl_period * 3600, toEpochSeconds now, true⟩

/-- The reranker scorer: query and batch of abstracts to sigmoid-normalised
relevance scores (the tokenizer, model forward pass and `torch.sigmoid` of
`rerank_papers`, abstracted as one oracle). -/
abbrev Scorer := String → List String → List ℚ

/-- Floor of a rational (denominators are positive, so floored integer
division of the numerator computes it). -/
def ratFloor (q : ℚ) : Int := Int.fdiv q.num q.den

/-- Python's `round` ties-to-even integer rounding. -/
def pyRoundHalfEven (q : ℚ) : Int :=
  let fl : Int := ratFloor q
  let fr : ℚ := q - fl
  if fr < 1/2 then fl
  else if 1/2 < fr then fl + 1
  else if fl % 2 = 0 then fl else fl + 1

/-- `round(score, 3)`. -/
def pyRound3 (q : ℚ) : ℚ := (pyRoundHalfEven (q * 1000) : ℚ) / 1000

/-- The filtering loop of `rerank_papers`: round each score to 3 digits, keep
a paper (with its `reranker_score`) only when the rounded score is `>= 0.5`. -/
def score_filter (pairs : List (Document × ℚ)) : List (Document × ℚ) :=
  pairs.filterMap fun x =>
    if (1 : ℚ)/2 ≤ pyRound3 x.2 then some (x.1, pyRound3 x.2) else none

/-- Stable insertion keeping descending score order: the new element goes
after every already-placed element whose score is not strictly smaller. -/
def insertDesc (x : Document × ℚ) : List (Document × ℚ) → List (Document × ℚ)
  | [] => [x]
  | y :: ys => if y.2 < x.2 then x :: y :: ys else y :: insertDesc x ys

/-- `sorted(filtered_papers, key=lambda p: p["reranker_score"], reverse=True)`:
Python's sort is stable, and a stable sort by a total preorder is unique, so
this left-to-right stable insertion sort computes the same list. -/
def sortByScoreDesc (l : List (Document × ℚ)) : List (Document × ℚ) :=
  l.foldl (fun acc x => insertDesc x acc) []

/-- `rerank_papers`: score every abstract in one batched call, round, filter
at `0.5`, sort descending by the rounded score. -/
def rerank_papers (query : String) (papers : List Document) (scorer : Scorer) :
    List (Document × ℚ) :=
  let doc_texts := papers.map fun p => p.abstract
  let scores := scorer query doc_texts
  sortByScoreDesc (score_filter (papers.zip scores))

/-- `str.lower()` (ASCII, which covers the configured messenger names). -/
def pyLower (s : String) : String := String.mk (s.toList.map Char.toLower)

/-- The observable effects of a notification cycle. -/
inductive Action where
  | queryIndex (keyword : String) (start_datetime end_datetime : Int)
  | ingestAttempt (start_datetime end_datetime : Int)
  | sendMessage (keyword : String) (papers : List (Document × Option ℚ))
      (status : Nat)
deriving DecidableEq, Repr

/-- The external collaborators of `send_notification`:
`KakaoMessage(config)` construction (token refresh can raise), the
Elasticsearch BM25 search per keyword and window, the two `from_pretrained`
calls, and the transport status code of `send_paper_kakao`. -/
structure NotifierOracles where
  kakaoInit : Except Unit Unit
  esSearch : Index → String → Int → Int → List Document
  loadTokenizer : String → Except Unit Unit
  loadModel : String → Except Unit Scorer
  sendStatus : String → List (Document × Option ℚ) → Nat
deriving Inhabited

/-- `search_papers`: empty keyword list short-circuits with no query; one
bool/range query per keyword otherwise.  Returns the keyword-to-hits map and
the queries issued. -/
def search_papers (esSearch : Index → String → Int → Int → List Document)
    (es : Index) (keywords : List String)
    (start_datetime end_datetime : Int) :
    List (String × List Document) × List Action :=
  if keywords.isEmpty then ([], [])
  else
    (keywords.map fun kw => (kw, esSearch es kw start_datetime end_datetime),
     keywords.map fun kw => Action.queryIndex kw start_datetime end_datetime)

/-- The per-keyword loop of `send_notification` (Step 4): skip keywords with
no papers, rerank only when a model is loaded (papers pass through with no
score otherwise), send via Kakao and log the status; the defensive non-kakao
branch returns from the whole function. -/
def notify_send_loop (o : NotifierOracles) (messenger_type : String)
    (reranker : Option Scorer) : List (String × List Document) → List Action
  | [] => []
  | (keyword, papers) :: rest =>
      if papers.isEmpty then notify_send_loop o messenger_type reranker rest
      else
        let ranked : List (Document × Option ℚ) :=
          match reranker with
          | some scorer =>
              (rerank_papers keyword papers scorer).map fun x => (x.1, some x.2)
          | none => papers.map fun p => (p, none)
        if messenger_type = "kakao" then
          Action.sendMessage keyword ranked (o.sendStatus keyword ranked)
            :: notify_send_loop o messenger_type reranker rest
        else []

/-- Outcome of one `send_notification` call: the system state afterwards,
whether an exception escaped, the actions performed before it did, and the
warnings the claims mention. -/
structure NotifyResult where
  state : SysState
  raised : Bool
  actions : List Action
  logs : List String
deriving DecidableEq, Repr

/-- Body of `send_notification` given the state it read: resolve the
messenger (`config.get("messenger", "kakao").lower()`), construct the Kakao
client, load keywords and window, retrieve per keyword, load the reranker if
configured (`from_pretrained` failures are uncaught and abort the cycle), and
run the send loop. -/
def send_notification_core (o : NotifierOracles) (now : DateTime)
    (st : SysState) : Bool × List Action × List String :=
  let config := st.redis.config
  let messenger_type := pyLower (config.messenger.getD "kakao")
  if messenger_type = "kakao" then
    match o.kakaoInit with
    | Except.error _ => (true, [], [])
    | Except.ok _ =>
        let keywords := get_search_keywords st.redis.search_keywords config
        let w := notifier_window st.redis.last_crawl_timestamp
          config.crawl_period now
        let sr := search_papers o.esSearch st.es keywords
          w.start_datetime w.end_datetime
        match config.reranker with
        | some model_id =>
            (match o.loadTokenizer model_id, o.loadModel model_id with
             | Except.ok _, Except.ok scorer =>
                 (false,
                  sr.2 ++ notify_send_loop o messenger_type (some scorer) sr.1,
                  [])
             | _, _ => (true, sr.2, []))
        | none =>
            (false, sr.2 ++ notify_send_loop o messenger_type none sr.1, [])
  else (false, [], ["warning: messenger not supported: " ++ messenger_type])

/-- `send_notification`: the function only reads Redis and the index, so the
state passes through unchanged. -/
def send_notification (o : NotifierOracles) (now : DateTime) (st : SysState) :
    NotifyResult :=
  let r := send_notification_core o now st
  ⟨st, r.1, r.2.1, r.2.2⟩

/-! ## `app/tasks_crawler.py`: tasks, queues and cycles -/

/-- The two units of work `scheduled_crawl` dispatches. -/
inductive PipelineTask where
  | crawl
  | notify
deriving DecidableEq, Repr

def queueOf : PipelineTask → String
  | PipelineTask.crawl => "crawler"
  | PipelineTask.notify => "notifier"

/-- `scheduled_crawl` enqueues `crawl_papers` on the `crawler` queue and then
`tasks_notifier.send_notifications` on the `notifier` queue. -/
def scheduled_crawl_enqueue : List PipelineTask :=
  [PipelineTask.crawl, PipelineTask.notify]

/-- The synchronous body of `scheduled_crawl`: store the current timestamp,
then hand both tasks to the broker. -/
def scheduled_crawl (now : DateTime) (st : SysState) :
    SysState × List PipelineTask :=
  ({ st with redis := store_last_execution_time now st.redis },
   scheduled_crawl_enqueue)

/-- Execution orders the broker may realise: a permutation of the enqueued
tasks that preserves per-queue FIFO order.  The two queues run on independent
workers, so nothing orders tasks across queues. -/
def valid_order (order : List PipelineTask) : Prop :=
  order.Perm scheduled_crawl_enqueue ∧
  ∀ q : String,
    order.filter (fun t => decide (queueOf t = q)) =
      scheduled_crawl_enqueue.filter (fun t => decide (queueOf t = q))

/-- Run one dequeued task, recording the actions it performs.  A crawl task
records the ingestion attempt (the fetch) for its window even when the fetch
raises; a raising task leaves the state as it was. -/
def run_task (fetch : FetchOracle) (o : NotifierOracles) (now : DateTime) :
    PipelineTask → SysState → SysState × List Action
  | PipelineTask.crawl, st =>
      let w := ingest_window st now
      (match crawl_and_store fetch now st with
       | Except.ok st2 => (st2, [Action.ingestAttempt w.start_datetime w.end_datetime])
       | Except.error _ => (st, [Action.ingestAttempt w.start_datetime w.end_datetime]))
  | PipelineTask.notify, st =>
      let r := send_notification o now st
      (r.state, r.actions)

def run_tasks (fetch : FetchOracle) (o : NotifierOracles) (now : DateTime) :
    List PipelineTask → SysState → SysState × List Action
  | [], st => (st, [])
  | t :: ts, st =>
      let r := run_task fetch o now t st
      let rest := run_tasks fetch o now ts r.1
      (rest.1, r.2 ++ rest.2)

/-- One triggered cycle: the synchronous `scheduled_crawl` body followed by
the enqueued tasks executed in the order `order` the broker realised. -/
def scheduled_crawl_run (fetch : FetchOracle) (o : NotifierOracles)
    (now_sched now_run : DateTime) (order : List PipelineTask)
    (st : SysState) : SysState × List Action :=
  let s := scheduled_crawl now_sched st
  run_tasks fetch o now_run order s.1

/-- A cycle in the order the code intends (crawl first, then notify). -/
def crawl_cycle (fetch : FetchOracle) (o : NotifierOracles)
    (now_sched now_run : DateTime) (st : SysState) : SysState :=
  (scheduled_crawl_run fetch o now_sched now_run scheduled_crawl_enqueue st).1

/-! ## Helper predicate and concrete scenario data -/

/-- Descending order by the attached score. -/
def ScoreSortedDesc (l : List (Document × ℚ)) : Prop :=
  l.Pairwise fun a b => b.2 ≤ a.2

/-- A configuration with one keyword, a 24-hour period, the default messenger
and no reranker. -/
def baseConfig : Config :=
  { crawl_period := 24, keywords := ["llm"], messenger := none, reranker := none }

def baseRedis : Redis :=
  { config := baseConfig
    last_crawl_timestamp := some "20240102000000"
    last_crawl_paper_count := none
    search_keywords := ["llm"]
    recent_papers := none }

def baseSt : SysState := { redis := baseRedis, es := [] }

def demoNow : DateTime := ⟨2024, 1, 2, 0, 0, 0⟩

/-- End of the demo window: the parsed `20240102000000`. -/
def demoEnd : Int := toEpochSeconds demoNow

def demoStart : Int := demoEnd - 24 * 3600

/-- Collaborators that all answer benignly: Kakao construction succeeds, the
index returns no hits, model loading succeeds, every send returns 200. -/
def demoOracles : NotifierOracles :=
  { kakaoInit := Except.ok ()
    esSearch := fun _ _ _ _ => []
    loadTokenizer := fun _ => Except.ok ()
    loadModel := fun _ => Except.ok fun _ _ => []
    sendStatus := fun _ _ => 200 }

def docA : Document := ⟨"A", "titleA", ["a"], "absA", 0, "linkA"⟩

def docB : Document := ⟨"B", "titleB", ["b"], "absB", 0, "linkB"⟩

def docC : Document := ⟨"C", "titleC", ["c"], "absC", 0, "linkC"⟩

def docD : Document := ⟨"D", "titleD", ["d"], "absD", 0, "linkD"⟩

/-- The scorer of the specification's rerank scenario: scores
`[0.9, 0.4, 0.5, 0.5]`. -/
def demoScorer : Scorer := fun _ _ => [9/10, 2/5, 1/2, 1/2]

def dupEntry : Entry :=
  ⟨"2401.00001", "A Title", ["Ada"], "An abstract", 0, "http-link"⟩

/-- C1 counterexample start state: the previous cycle closed at
2024-01-01 00:00:00. -/
def c1St : SysState :=
  { baseSt with
    redis := { baseRedis with last_crawl_timestamp := some "20240101000000" } }

/-- A feed whose fetch fails entirely. -/
def failFetch : FetchOracle := fun _ _ => Except.error ()

/-- A feed that succeeds with no entries. -/
def emptyFetch : FetchOracle := fun _ _ => Except.ok []

/-- C8 state: a previous document count of 0 is on record. -/
def c8St : SysState :=
  { baseSt with
    redis := { baseRedis with last_crawl_paper_count := some 0 } }

def c8Fetch : FetchOracle := fun _ _ => Except.ok [dupEntry]

/-- C9 counterexample state: a reranker model is configured. -/
def c9St : SysState :=
  { baseSt with
    redis := { baseRedis with
      config := { baseConfig with reranker := some "cross-encoder" } } }

/-- C9 counterexample collaborators: `AutoTokenizer.from_pretrained` raises
(model unavailable). -/
def c9Oracles : NotifierOracles :=
  { demoOracles with loadTokenizer := fun _ => Except.error () }

/-- C10 counterexample state: the configured messenger value is `"Kakao"`,
which differs from `"kakao"` as a string. -/
def c10KakaoSt : SysState :=
  { baseSt with
    redis := { baseRedis with
      config := { baseConfig with messenger := some "Kakao" } } }

/-- C10 witness state: an unsupported messenger. -/
def c10SlackSt : SysState :=
  { baseSt with
    redis := { baseRedis with
      config := { baseConfig with messenger := some "slack" } } }

/-! ## Lemmas about the indexing step -/

theorem storeLoop_count (papers : List Entry) (idx : Index) (count : Nat) :
    (storeLoop papers idx count).1 = count + papers.length := by
  induction papers generalizing idx count with
  | nil => simp [storeLoop]
  | cons p rest ih =>
      simp only [storeLoop, ih, List.length_cons]
      omega

theorem indexAttempt_eq (idx : Index) (doc : Document) :
    indexAttempt idx doc =
      if doc.id ∈ idx.map Prod.fst then idx else idx ++ [(doc.id, doc)] := by
  by_cases h : doc.id ∈ idx.map Prod.fst <;>
    simp [indexAttempt, es_index_create, h]

theorem indexAttempt_keys (idx : Index) (doc : Document) (k : String)
    (h : k ∈ idx.map Prod.fst) : k ∈ (indexAttempt idx doc).map Prod.fst := by
  rw [indexAttempt_eq]
  split
  · exact h
  · simp only [List.map_append, List.mem_append]
    exact Or.inl h

theorem indexAttempt_self (idx : Index) (doc : Document) :
    doc.id ∈ (indexAttempt idx doc).map Prod.fst := by
  rw [indexAttempt_eq]
  split
  · assumption
  · simp

theorem storeLoop_keys (papers : List Entry) (idx : Index) (count : Nat)
    (k : String) (h : k ∈ idx.map Prod.fst) :
    k ∈ (storeLoop papers idx count).2.map Prod.fst := by
  induction papers generalizing idx count with
  | nil => simpa [storeLoop] using h
  | cons p rest ih =>
      simp only [storeLoop]
      exact ih _ _ (indexAttempt_keys _ _ _ h)

theorem storeLoop_mem_ids (papers : List Entry) (idx : Index) (count : Nat)
    (p : Entry) (hp : p ∈ papers) :
    (buildDoc p).id ∈ (storeLoop papers idx count).2.map Prod.fst := by
  induction papers generalizing idx count with
  | nil => cases hp
  | cons q rest ih =>
      simp only [storeLoop]
      rcases List.mem_cons.mp hp with h | h
      · subst h
        exact storeLoop_keys _ _ _ _ (indexAttempt_self idx (buildDoc p))
      · exact ih _ _ h

theorem storeLoop_all_present (papers : List Entry) (idx : Index) (count : Nat)
    (h : ∀ p ∈ papers, (buildDoc p).id ∈ idx.map Prod.fst) :
    (storeLoop papers idx count).2 = idx := by
  induction papers generalizing idx count with
  | nil => rfl
  | cons q rest ih =>
      have hq := h q (List.mem_cons_self q rest)
      simp only [storeLoop, indexAttempt_eq, if_pos hq]
      exact ih _ _ fun p hp => h p (List.mem_cons_of_mem _ hp)

/-- C5: a create-only write of an already-present identifier leaves the index
(the stored document and the distinct-identifier count) entirely unchanged,
so ingesting the same entry list a second time yields the index state of
ingesting it once. -/
theorem C5_create_only_idempotent (papers : List Entry) (e : Entry) (idx : Index) :
    (store_papers_to_elasticsearch [e] idx).2 =
      (if (buildDoc e).id ∈ idx.map Prod.fst then idx
       else idx ++ [((buildDoc e).id, buildDoc e)]) ∧
    (store_papers_to_elasticsearch papers
        (store_papers_to_elasticsearch papers idx).2).2 =
      (store_papers_to_elasticsearch papers idx).2 := by
  constructor
  · simp [store_papers_to_elasticsearch, storeLoop, indexAttempt_eq]
  · exact storeLoop_all_present _ _ _ fun p hp => storeLoop_mem_ids _ _ _ _ hp

/-- C7: the indexing step is total (the duplicate-identifier conflict is
caught) and returns the number of processed entries; in particular, storing
the same entry twice reports a count of 2 while the index keeps a single
copy. -/
theorem C7_count_is_processed (papers : List Entry) (idx : Index) :
    (store_papers_to_elasticsearch papers idx).1 = papers.length ∧
    (store_papers_to_elasticsearch [dupEntry, dupEntry] []).1 = 2 ∧
    (store_papers_to_elasticsearch [dupEntry, dupEntry] []).2 =
      [((buildDoc dupEntry).id, buildDoc dupEntry)] := by
  refine ⟨?_, by decide, by decide⟩
  simpa using storeLoop_count papers idx 0

/-! ## Lemmas about the crawl window and the ingestion step -/

theorem parse_timestamp_empty : parse_timestamp "" = none := by decide

/-- C3: a stored timestamp that parses puts the window end exactly at the
parsed time with `start = end - lookbackHours` and `start ≤ end`; an absent
or unparsable timestamp falls back to the current UTC time (same lookback),
with the parse failure of a non-empty stored string logged as a warning and
never raised. -/
theorem C3_compute_window (s : String) (dt : DateTime) (lookback : Int)
    (now : DateTime) (hp : parse_timestamp s = some dt) (h0 : 0 ≤ lookback) :
    crawl_window (some s) lookback now =
      ⟨toEpochSeconds dt - lookback * 3600, toEpochSeconds dt, false⟩ ∧
    (crawl_window (some s) lookback now).start_datetime ≤
      (crawl_window (some s) lookback now).end_datetime ∧
    (∀ s2 : String, parse_timestamp s2 = none →
      crawl_window (some s2) lookback now =
        ⟨toEpochSeconds now - lookback * 3600, toEpochSeconds now, s2 != ""⟩) ∧
    crawl_window none lookback now =
      ⟨toEpochSeconds now - lookback * 3600, toEpochSeconds now, false⟩ ∧
    (crawl_window none lookback now).start_datetime ≤
      (crawl_window none lookback now).end_datetime := by
  have hlook : lookback * 3600 ≥ 0 := by positivity
  have hs : ¬ s = "" := by
    intro he
    rw [he, parse_timestamp_empty] at hp
    cases hp
  have hwin : crawl_window (some s) lookback now =
      ⟨toEpochSeconds dt - lookback * 3600, toEpochSeconds dt, false⟩ := by
    simp [crawl_window, hs, hp]
  refine ⟨hwin, ?_, ?_, rfl, ?_⟩
  · rw [hwin]
    simp only []
    omega
  · intro s2 hp2
    by_cases h2 : s2 = ""
    · subst h2
      simp [crawl_window]
    · simp [crawl_window, h2, hp2, bne, h2]
  · simp only [crawl_window]
    omega

/-- Witness for C3 at a concrete stored timestamp and lookback. -/
theorem C3_compute_window_witness :
    crawl_window (some "20240101000000") 24 ⟨2024, 1, 2, 0, 0, 0⟩ =
      ⟨toEpochSeconds ⟨2024, 1, 1, 0, 0, 0⟩ - 24 * 3600,
       toEpochSeconds ⟨2024, 1, 1, 0, 0, 0⟩, false⟩ :=
  (C3_compute_window "20240101000000" ⟨2024, 1, 1, 0, 0, 0⟩ 24
    ⟨2024, 1, 2, 0, 0, 0⟩ (by decide) (by decide)).1

theorem crawl_and_store_ok_frame (fetch : FetchOracle) (now : DateTime)
    (st st2 : SysState) (h : crawl_and_store fetch now st = Except.ok st2) :
    st2.redis.last_crawl_timestamp = st.redis.last_crawl_timestamp ∧
    st2.redis.config = st.redis.config ∧
    st2.redis.search_keywords = st.redis.search_keywords := by
  simp only [crawl_and_store] at h
  split at h
  · cases h
  · split at h
    · cases h
      simp
    · cases h
      simp

/-- C8 (amended): the ingestion step never writes `last_crawl_timestamp`
(nor the configuration or keyword set), but on a successful fetch it does
write `last_crawl_paper_count` with the processed-entry count. -/
theorem C8_ingest_effects (fetch : FetchOracle) (now : DateTime) (st : SysState)
    (ps : List Entry)
    (h : fetch (ingest_window st now).start_datetime
        (ingest_window st now).end_datetime = Except.ok ps) :
    ∃ st2, crawl_and_store fetch now st = Except.ok st2 ∧
      st2.redis.last_crawl_timestamp = st.redis.last_crawl_timestamp ∧
      st2.redis.last_crawl_paper_count = some ps.length ∧
      st2.redis.config = st.redis.config ∧
      st2.redis.search_keywords = st.redis.search_keywords := by
  simp only [crawl_and_store, h]
  by_cases hp : ps.isEmpty
  · rw [if_pos hp]
    refine ⟨_, rfl, rfl, ?_, rfl, rfl⟩
    simp [List.isEmpty_iff.mp hp]
  · rw [if_neg hp]
    refine ⟨_, rfl, rfl, ?_, rfl, rfl⟩
    simp only [store_papers_to_elasticsearch, storeLoop_count]
    simp

/-- Witness for C8 at a concrete successful fetch of one entry. -/
theorem C8_ingest_effects_witness :
    ∃ st2, crawl_and_store c8Fetch demoNow c8St = Except.ok st2 ∧
      st2.redis.last_crawl_timestamp = c8St.redis.last_crawl_timestamp ∧
      st2.redis.last_crawl_paper_count = some 1 ∧
      st2.redis.config = c8St.redis.config ∧
      st2.redis.search_keywords = c8St.redis.search_keywords :=
  C8_ingest_effects c8Fetch demoNow c8St [dupEntry] rfl

/-- C8 counterexample: `crawl_and_store` itself changes the persisted
last-crawl document count (from 0 to 1 here), refuting that the ingest call
leaves it unchanged. -/
theorem C8_counterexample :
    c8St.redis.last_crawl_paper_count = some 0 ∧
    (∃ st2, crawl_and_store c8Fetch demoNow c8St = Except.ok st2 ∧
      st2.redis.last_crawl_paper_count ≠ c8St.redis.last_crawl_paper_count) := by
  refine ⟨rfl, ⟨_, rfl, by decide⟩⟩

/-! ## Lemmas about the cycle and the timestamp advance -/

theorem send_notification_state (o : NotifierOracles) (now : DateTime)
    (st : SysState) : (send_notification o now st).state = st := rfl

theorem run_tasks_enqueue_state (fetch : FetchOracle) (o : NotifierOracles)
    (now : DateTime) (st : SysState) :
    (run_tasks fetch o now scheduled_crawl_enqueue st).1 =
      (run_task fetch o now PipelineTask.crawl st).1 := by
  simp [scheduled_crawl_enqueue, run_tasks, run_task, send_notification]

theorem crawl_cycle_timestamp (fetch : FetchOracle) (o : NotifierOracles)
    (ns nr : DateTime) (st : SysState) :
    (crawl_cycle fetch o ns nr st).redis.last_crawl_timestamp =
      some (format_timestamp ns) := by
  unfold crawl_cycle scheduled_crawl_run
  rw [run_tasks_enqueue_state]
  simp only [run_task]
  cases hc : crawl_and_store fetch nr (scheduled_crawl ns st).1 with
  | ok st2 =>
      simp only [hc]
      rw [(crawl_and_store_ok_frame _ _ _ _ hc).1]
      simp [scheduled_crawl, store_last_execution_time]
  | error e =>
      simp only [hc]
      simp [scheduled_crawl, store_last_execution_time]

/-- C1 (amended): a triggered cycle stores `format(now)` as the new
timestamp unconditionally (before the ingestion task and regardless of its
outcome); the window end the ingestion then computes equals that stored
time; and across two cycles with a non-decreasing clock the parsed stored
timestamps are non-decreasing. -/
theorem C1_timestamp_advance (st : SysState) (f1 f2 : FetchOracle)
    (o : NotifierOracles) (now1 nr1 now2 nr2 : DateTime)
    (h1 : parse_timestamp (format_timestamp now1) = some now1)
    (h2 : parse_timestamp (format_timestamp now2) = some now2)
    (hmono : toEpochSeconds now1 ≤ toEpochSeconds now2) :
    (crawl_cycle f1 o now1 nr1 st).redis.last_crawl_timestamp =
      some (format_timestamp now1) ∧
    (ingest_window (scheduled_crawl now1 st).1 nr1).end_datetime =
      toEpochSeconds now1 ∧
    (crawl_cycle f2 o now2 nr2
        (crawl_cycle f1 o now1 nr1 st)).redis.last_crawl_timestamp =
      some (format_timestamp now2) ∧
    ((crawl_cycle f1 o now1 nr1 st).redis.last_crawl_timestamp.bind
        parse_timestamp).map toEpochSeconds = some (toEpochSeconds now1) ∧
    ((crawl_cycle f2 o now2 nr2
        (crawl_cycle f1 o now1 nr1 st)).redis.last_crawl_timestamp.bind
        parse_timestamp).map toEpochSeconds = some (toEpochSeconds now2) ∧
    toEpochSeconds now1 ≤ toEpochSeconds now2 := by
  have hne : format_timestamp now1 ≠ "" := by
    intro he
    rw [he, parse_timestamp_empty] at h1
    cases h1
  refine ⟨crawl_cycle_timestamp f1 o now1 nr1 st, ?_,
    crawl_cycle_timestamp f2 o now2 nr2 _, ?_, ?_, hmono⟩
  · simp [ingest_window, scheduled_crawl, store_last_execution_time,
      crawl_window, hne, h1]
  · rw [crawl_cycle_timestamp]
    simp [h1]
  · rw [crawl_cycle_timestamp]
    simp [h2]

/-- Witness for C1 (amended) at two concrete cycle times one day apart. -/
theorem C1_timestamp_advance_witness :
    (crawl_cycle emptyFetch demoOracles ⟨2024, 1, 1, 0, 0, 0⟩
        ⟨2024, 1, 1, 0, 0, 0⟩ baseSt).redis.last_crawl_timestamp =
      some (format_timestamp ⟨2024, 1, 1, 0, 0, 0⟩) ∧
    (crawl_cycle emptyFetch demoOracles ⟨2024, 1, 2, 0, 0, 0⟩
        ⟨2024, 1, 2, 0, 0, 0⟩
        (crawl_cycle emptyFetch demoOracles ⟨2024, 1, 1, 0, 0, 0⟩
          ⟨2024, 1, 1, 0, 0, 0⟩ baseSt)).redis.last_crawl_timestamp =
      some (format_timestamp ⟨2024, 1, 2, 0, 0, 0⟩) := by
  have h := C1_timestamp_advance baseSt emptyFetch emptyFetch demoOracles
    ⟨2024, 1, 1, 0, 0, 0⟩ ⟨2024, 1, 1, 0, 0, 0⟩ ⟨2024, 1, 2, 0, 0, 0⟩
    ⟨2024, 1, 2, 0, 0, 0⟩ (by decide) (by decide) (by decide)
  exact ⟨h.1, h.2.2.1⟩

/-- C1 counterexample: a cycle whose ingestion fetch fails entirely still
advances the persisted timestamp (from `20240101000000` to
`20240102000000`), refuting that the previous value is retained. -/
theorem C1_counterexample :
    c1St.redis.last_crawl_timestamp = some "20240101000000" ∧
    (∀ a b : Int, failFetch a b = Except.error ()) ∧
    (crawl_cycle failFetch demoOracles demoNow demoNow
        c1St).redis.last_crawl_timestamp = some "20240102000000" := by
  exact ⟨rfl, fun a b => rfl, by decide⟩

/-! ## Task ordering across the two queues -/

/-- The broker may run the notifier's task before the crawler's: the two
tasks sit on different queues, so any interleaving preserves per-queue FIFO
order. -/
theorem valid_order_swap :
    valid_order [PipelineTask.notify, PipelineTask.crawl] := by
  constructor
  · decide
  · intro q
    by_cases h1 : q = "crawler"
    · subst h1
      decide
    · by_cases h2 : q = "notifier"
      · subst h2
        decide
      · have hc : ¬ queueOf PipelineTask.crawl = q := fun h => h1 h.symm
        have hn : ¬ queueOf PipelineTask.notify = q := fun h => h2 h.symm
        simp [scheduled_crawl_enqueue, List.filter, hc, hn]

/-- C2: a valid broker order for the tasks `scheduled_crawl` enqueues runs
the retrieval query against the newly advanced window `[demoStart, demoEnd]`
before the ingestion attempt for that same window — retrieval can read a
window whose ingestion has not yet been attempted. -/
theorem C2_retrieval_before_ingest :
    valid_order [PipelineTask.notify, PipelineTask.crawl] ∧
    (scheduled_crawl_run emptyFetch demoOracles demoNow demoNow
        [PipelineTask.notify, PipelineTask.crawl] baseSt).2 =
      [Action.queryIndex "llm" demoStart demoEnd,
       Action.ingestAttempt demoStart demoEnd] :=
  ⟨valid_order_swap, by decide⟩

/-! ## Keyword resolution -/

/-- C6: the active keyword list is the stored set when it is non-empty and
exactly the configured keywords otherwise — always one of the two sources,
never a merge; in particular an empty stored set with configured keywords
`["llm", "retrieval"]` resolves to `["llm", "retrieval"]`. -/
theorem C6_keyword_resolution (stored : List String) (config : Config) :
    get_search_keywords stored config =
      (if stored = [] then config.keywords else stored) ∧
    (get_search_keywords stored config = stored ∨
      get_search_keywords stored config = config.keywords) ∧
    get_search_keywords []
      { crawl_period := 24, keywords := ["llm", "retrieval"],
        messenger := none, reranker := none } = ["llm", "retrieval"] := by
  have heq : get_search_keywords stored config =
      (if stored = [] then config.keywords else stored) := by
    unfold get_search_keywords
    rcases stored with _ | ⟨a, as⟩
    · rcases hc : config.keywords with _ | ⟨b, bs⟩ <;> simp [hc]
    · simp
  refine ⟨heq, ?_, rfl⟩
  rw [heq]
  split
  · right
    rfl
  · left
    rfl

/-! ## Lemmas about the reranker -/

theorem mem_insertDesc {x y : Document × ℚ} {l : List (Document × ℚ)}
    (h : y ∈ insertDesc x l) : y = x ∨ y ∈ l := by
  induction l with
  | nil => simpa [insertDesc] using h
  | cons z zs ih =>
      simp only [insertDesc] at h
      split at h
      · rcases List.mem_cons.mp h with h | h
        · exact Or.inl h
        · exact Or.inr h
      · rcases List.mem_cons.mp h with h | h
        · exact Or.inr (h ▸ List.mem_cons_self z zs)
        · rcases ih h with h | h
          · exact Or.inl h
          · exact Or.inr (List.mem_cons_of_mem z h)

theorem insertDesc_sorted {x : Document × ℚ} {l : List (Document × ℚ)}
    (h : ScoreSortedDesc l) : ScoreSortedDesc (insertDesc x l) := by
  induction l with
  | nil => simp [insertDesc, ScoreSortedDesc]
  | cons y ys ih =>
      obtain ⟨hy, hys⟩ := List.pairwise_cons.mp h
      simp only [insertDesc]
      split
      · rename_i hlt
        refine List.Pairwise.cons ?_ (List.Pairwise.cons hy hys)
        intro z hz
        rcases List.mem_cons.mp hz with rfl | hz
        · exact le_of_lt hlt
        · exact le_trans (hy z hz) (le_of_lt hlt)
      · rename_i hge
        refine List.Pairwise.cons ?_ (ih hys)
        intro z hz
        rcases mem_insertDesc hz with rfl | hz
        · exact not_lt.mp hge
        · exact hy z hz

theorem insertDesc_filter (x : Document × ℚ) (l : List (Document × ℚ)) (s : ℚ)
    (h : ScoreSortedDesc l) :
    (insertDesc x l).filter (fun y => decide (y.2 = s)) =
      (if x.2 = s then
        l.filter (fun y => decide (y.2 = s)) ++ [x]
       else l.filter (fun y => decide (y.2 = s))) := by
  induction l with
  | nil =>
      by_cases hx : x.2 = s <;> simp [insertDesc, List.filter, hx]
  | cons y ys ih =>
      obtain ⟨hy, hys⟩ := List.pairwise_cons.mp h
      simp only [insertDesc]
      split
      · rename_i hlt
        by_cases hx : x.2 = s
        · have hnone : (y :: ys).filter (fun z => decide (z.2 = s)) = [] := by
            rw [List.filter_eq_nil_iff]
            intro z hz
            have hzle : z.2 ≤ y.2 := by
              rcases List.mem_cons.mp hz with rfl | hz
              · exact le_refl _
              · exact hy z hz
            have hzlt : z.2 < x.2 := lt_of_le_of_lt hzle hlt
            simp [hx ▸ hzlt.ne]
          rw [List.filter_cons, hnone]
          simp [hx]
        · rw [List.filter_cons]
          simp [hx]
      · rename_i hge
        rw [List.filter_cons, List.filter_cons, ih hys]
        by_cases hx : x.2 = s <;> by_cases hyp : y.2 = s <;>
          simp [hx, hyp]

theorem foldl_insertDesc_sorted (l acc : List (Document × ℚ))
    (h : ScoreSortedDesc acc) :
    ScoreSortedDesc (l.foldl (fun a x => insertDesc x a) acc) := by
  induction l generalizing acc with
  | nil => simpa using h
  | cons x xs ih => exact ih _ (insertDesc_sorted h)

theorem foldl_insertDesc_filter (l acc : List (Document × ℚ)) (s : ℚ)
    (h : ScoreSortedDesc acc) :
    (l.foldl (fun a x => insertDesc x a) acc).filter
        (fun y => decide (y.2 = s)) =
      acc.filter (fun y => decide (y.2 = s)) ++
        l.filter (fun y => decide (y.2 = s)) := by
  induction l generalizing acc with
  | nil => simp
  | cons x xs ih =>
      rw [List.foldl_cons, ih _ (insertDesc_sorted h),
        insertDesc_filter _ _ _ h, List.filter_cons]
      by_cases hx : x.2 = s <;> simp [hx]

theorem mem_foldl_insertDesc {y : Document × ℚ}
    {l acc : List (Document × ℚ)}
    (h : y ∈ l.foldl (fun a x => insertDesc x a) acc) :
    y ∈ acc ∨ y ∈ l := by
  induction l generalizing acc with
  | nil => exact Or.inl (by simpa using h)
  | cons x xs ih =>
      rw [List.foldl_cons] at h
      rcases ih h with h2 | h2
      · rcases mem_insertDesc h2 with h4 | h3
        · rw [h4]
          exact Or.inr (List.mem_cons_self x xs)
        · exact Or.inl h3
      · exact Or.inr (List.mem_cons_of_mem x h2)

theorem score_filter_mem {z : Document × ℚ} {pairs : List (Document × ℚ)}
    (h : z ∈ score_filter pairs) : (1 : ℚ)/2 ≤ z.2 := by
  simp only [score_filter, List.mem_filterMap] at h
  obtain ⟨a, _, ha⟩ := h
  by_cases hc : (1 : ℚ)/2 ≤ pyRound3 a.2
  · rw [if_pos hc] at ha
    cases ha
    exact hc
  · rw [if_neg hc] at ha
    cases ha

/-- C4: every reranked result carries a (3-digit-rounded) score of at least
0.5; the output is sorted descending by score; documents with exactly equal
scores keep their relative order from the filtered input (stability, stated
as equality of the per-score fibres); and the scenario with scores
`[0.9, 0.4, 0.5, 0.5]` for `[A, B, C, D]` returns `[A, C, D]`. -/
theorem C4_rerank_filter_sort (query : String) (papers : List Document)
    (scorer : Scorer) :
    (∀ x ∈ rerank_papers query papers scorer, (1 : ℚ)/2 ≤ x.2) ∧
    ScoreSortedDesc (rerank_papers query papers scorer) ∧
    (∀ s : ℚ,
      (rerank_papers query papers scorer).filter (fun y => decide (y.2 = s)) =
        (score_filter (papers.zip
            (scorer query (papers.map fun p => p.abstract)))).filter
          (fun y => decide (y.2 = s))) ∧
    rerank_papers "k" [docA, docB, docC, docD] demoScorer =
      [(docA, 9/10), (docC, 1/2), (docD, 1/2)] := by
  refine ⟨?_, ?_, ?_, ?_⟩
  · intro x hx
    unfold rerank_papers sortByScoreDesc at hx
    rcases mem_foldl_insertDesc hx with h | h
    · cases h
    · exact score_filter_mem h
  · exact foldl_insertDesc_sorted _ _ (by simp [ScoreSortedDesc])
  · intro s
    unfold rerank_papers sortByScoreDesc
    rw [foldl_insertDesc_filter _ _ _ (by simp [ScoreSortedDesc])]
    simp
  · norm_num [rerank_papers, demoScorer, score_filter, List.zip,
      List.zipWith, List.filterMap, pyRound3, pyRoundHalfEven, ratFloor,
      Int.fdiv, sortByScoreDesc, List.foldl, insertDesc]

/-! ## Lemmas about the notification cycle -/

theorem mem_search_actions {a : Action}
    {esSearch : Index → String → Int → Int → List Document} {es : Index}
    {keywords : List String} {s e : Int}
    (h : a ∈ (search_papers esSearch es keywords s e).2) :
    ∃ kw, a = Action.queryIndex kw s e := by
  by_cases hk : keywords.isEmpty
  · simp [search_papers, hk] at h
  · simp only [search_papers, if_neg hk] at h
    obtain ⟨kw, _, hkw⟩ := List.mem_map.mp h
    exact ⟨kw, hkw.symm⟩

theorem mem_search_results {kw : String} {papers : List Document}
    {esSearch : Index → String → Int → Int → List Document} {es : Index}
    {keywords : List String} {s e : Int}
    (h : (kw, papers) ∈ (search_papers esSearch es keywords s e).1) :
    papers = esSearch es kw s e := by
  by_cases hk : keywords.isEmpty
  · simp [search_papers, hk] at h
  · simp only [search_papers, if_neg hk] at h
    obtain ⟨k2, _, hk2⟩ := List.mem_map.mp h
    cases hk2
    rfl

theorem notify_send_loop_none_mem (o : NotifierOracles)
    (items : List (String × List Document)) (kw : String)
    (ps : List (Document × Option ℚ)) (status : Nat)
    (h : Action.sendMessage kw ps status ∈
      notify_send_loop o "kakao" none items) :
    ∃ papers, (kw, papers) ∈ items ∧
      ps = papers.map fun p => (p, (none : Option ℚ)) := by
  induction items with
  | nil => cases h
  | cons item rest ih =>
      obtain ⟨k2, papers2⟩ := item
      simp only [notify_send_loop] at h
      split at h
      · obtain ⟨papers, hmem, hps⟩ := ih h
        exact ⟨papers, List.mem_cons_of_mem _ hmem, hps⟩
      · rw [if_true] at h
        rcases List.mem_cons.mp h with heq | h2
        · injection heq with hk2 hp2 hs2
          refine ⟨papers2, ?_, hp2⟩
          rw [hk2]
          exact List.mem_cons_self _ _
        · obtain ⟨papers, hmem, hps⟩ := ih h2
          exact ⟨papers, List.mem_cons_of_mem _ hmem, hps⟩

/-- C9 (amended): when no reranker is configured the cycle completes and
every message carries the retrieval result in its un-reranked order (no
scores attached); when a reranker is configured and fails to load, the
exception escapes `send_notification` (the cycle aborts) and no message is
sent — there is no fallback to the un-reranked order. -/
theorem C9_reranker_modes (o : NotifierOracles) (now : DateTime)
    (st : SysState)
    (hm : pyLower (st.redis.config.messenger.getD "kakao") = "kakao")
    (hk : o.kakaoInit = Except.ok ()) :
    (st.redis.config.reranker = none →
      (send_notification o now st).raised = false ∧
      ∀ kw ps status,
        Action.sendMessage kw ps status ∈ (send_notification o now st).actions →
          ps = (o.esSearch st.es kw
              (notifier_window st.redis.last_crawl_timestamp
                st.redis.config.crawl_period now).start_datetime
              (notifier_window st.redis.last_crawl_timestamp
                st.redis.config.crawl_period now).end_datetime).map
            fun p => (p, (none : Option ℚ))) ∧
    (∀ model_id, st.redis.config.reranker = some model_id →
      o.loadTokenizer model_id = Except.error () →
      (send_notification o now st).raised = true ∧
      ∀ kw ps status,
        Action.sendMessage kw ps status ∉ (send_notification o now st).actions) := by
  constructor
  · intro hr
    have hs : send_notification o now st =
        ⟨st, false,
          (search_papers o.esSearch st.es
              (get_search_keywords st.redis.search_keywords st.redis.config)
              (notifier_window st.redis.last_crawl_timestamp
                st.redis.config.crawl_period now).start_datetime
              (notifier_window st.redis.last_crawl_timestamp
                st.redis.config.crawl_period now).end_datetime).2 ++
            notify_send_loop o "kakao" none
              (search_papers o.esSearch st.es
                (get_search_keywords st.redis.search_keywords st.redis.config)
                (notifier_window st.redis.last_crawl_timestamp
                  st.redis.config.crawl_period now).start_datetime
                (notifier_window st.redis.last_crawl_timestamp
                  st.redis.config.crawl_period now).end_datetime).1, []⟩ := by
      simp only [send_notification, send_notification_core, hm, hk, hr,
        if_true]
    rw [hs]
    refine ⟨rfl, ?_⟩
    intro kw ps status hmem
    rcases List.mem_append.mp hmem with hq | hl
    · obtain ⟨kw2, hq2⟩ := mem_search_actions hq
      cases hq2
    · obtain ⟨papers, hmem2, hps⟩ := notify_send_loop_none_mem _ _ _ _ _ hl
      rw [hps, mem_search_results hmem2]
  · intro model_id hr htok
    have hs : send_notification o now st =
        ⟨st, true,
          (search_papers o.esSearch st.es
              (get_search_keywords st.redis.search_keywords st.redis.config)
              (notifier_window st.redis.last_crawl_timestamp
                st.redis.config.crawl_period now).start_datetime
              (notifier_window st.redis.last_crawl_timestamp
                st.redis.config.crawl_period now).end_datetime).2, []⟩ := by
      simp only [send_notification, send_notification_core, hm, hk, hr, htok,
        if_true]
    rw [hs]
    refine ⟨rfl, ?_⟩
    intro kw ps status hmem
    obtain ⟨kw2, hq2⟩ := mem_search_actions hmem
    cases hq2

/-- Witness for C9 (amended): with no reranker configured the cycle
completes without raising. -/
theorem C9_reranker_modes_witness :
    (send_notification demoOracles demoNow baseSt).raised = false :=
  (((C9_reranker_modes demoOracles demoNow baseSt (by decide) rfl).1) rfl).1

/-- C9 counterexample: with a configured reranker whose load fails, the
cycle raises after the retrieval query — it neither falls back to the
un-reranked order nor continues. -/
theorem C9_counterexample :
    c9St.redis.config.reranker = some "cross-encoder" ∧
    (send_notification c9Oracles demoNow c9St).raised = true ∧
    (send_notification c9Oracles demoNow c9St).actions =
      [Action.queryIndex "llm" demoStart demoEnd] := by
  exact ⟨rfl, by decide, by decide⟩

/-- C10 (amended): when the lowercased configured messenger differs from
`"kakao"`, `send_notification` returns right after logging the warning: the
state is untouched and no query or send happens. -/
theorem C10_unsupported_messenger (o : NotifierOracles) (now : DateTime)
    (st : SysState)
    (h : pyLower (st.redis.config.messenger.getD "kakao") ≠ "kakao") :
    send_notification o now st =
      ⟨st, false, [],
       ["warning: messenger not supported: "
          ++ pyLower (st.redis.config.messenger.getD "kakao")]⟩ := by
  simp only [send_notification, send_notification_core, if_neg h]

/-- Witness for C10 (amended) at the concrete messenger `"slack"`. -/
theorem C10_unsupported_messenger_witness :
    send_notification demoOracles demoNow c10SlackSt =
      ⟨c10SlackSt, false, [],
       ["warning: messenger not supported: slack"]⟩ :=
  C10_unsupported_messenger demoOracles demoNow c10SlackSt (by decide)

/-- C10 counterexample: the configured value `"Kakao"` differs from
`"kakao"`, yet `send_notification` does not return immediately — it issues
the retrieval query and logs no unsupported-messenger warning, because the
code lowercases the configured value first. -/
theorem C10_counterexample :
    c10KakaoSt.redis.config.messenger = some "Kakao" ∧
    some "Kakao" ≠ some "kakao" ∧
    (send_notification demoOracles demoNow c10KakaoSt).actions =
      [Action.queryIndex "llm" demoStart demoEnd] ∧
    (send_notification demoOracles demoNow c10KakaoSt).logs = [] := by
  exact ⟨rfl, by decide, by decide, by decide⟩

end ArxivNotifier
